import Mathlib

/-!
Shallow embedding of the drug supply-chain chaincode
(`src/chaincode/drugChaincode.go`) and proofs about its operations.

The chaincode operates per key (one `drugID`), so the state we model is the
stored value at one key: `Option StoredVal`, where `none` models an absent
key and `StoredVal.bad` models stored bytes that do not decode as a `Drug`
record.  Timestamps (`getTimestamp`, which reads the wall clock) are passed
as an explicit `ts : String` argument.  The caller identity is the MSP ID
string returned by `getMSPID`; a failed identity lookup yields the empty
string with the error either folded into the role check (RegisterDrug,
RecallDrug) or discarded (ShipDrug).
-/

/-- The `Drug` struct of the source, field for field.  `History` entries are
the formatted strings `"timestamp|event|from|recipient|details"` exactly as the
source builds them with `fmt.Sprintf`. -/
structure Drug where
  drugID : String
  name : String
  manufacturer : String
  batchNumber : String
  mfgDate : String
  expiryDate : String
  composition : String
  currentOwner : String
  status : String
  history : List String
  isRecalled : Bool
  inspectionNotes : List String
deriving DecidableEq, Repr

/-- The Go zero value of the `Drug` struct: empty strings, `false`, nil
slices.  This is what `var drug Drug` holds when `json.Unmarshal` fails and
its error is discarded. -/
def zeroDrug : Drug :=
  { drugID := "", name := "", manufacturer := "", batchNumber := ""
  , mfgDate := "", expiryDate := "", composition := ""
  , currentOwner := "", status := "", history := []
  , isRecalled := false, inspectionNotes := [] }

/-- The bytes stored at a key: either bytes that decode (`json.Unmarshal`
succeeds) as a `Drug` record, or undecodable bytes. -/
inductive StoredVal where
  | good (d : Drug)
  | bad
deriving DecidableEq, Repr

/-- Error kinds of the chaincode, one per `fmt.Errorf` site / propagated
error:
* `unauthorized`  — "only Cipla (Manufacturer) can register drugs" /
  "only the current owner can ship this drug" /
  "only CDSCO (Regulator) can recall drugs";
* `alreadyExists` — "drug with ID %s already exists";
* `notFound`      — "drug %s not found";
* `decodeError`   — the `json.Unmarshal` error returned by `ShipDrug`. -/
inductive Err where
  | unauthorized
  | alreadyExists
  | notFound
  | decodeError
deriving DecidableEq, Repr

/-- Result of one invocation: `ok`, a returned error, or a Go runtime panic
(slice bound out of range). -/
inductive Outcome where
  | ok
  | err (e : Err)
  | panic
deriving DecidableEq, Repr

/-- The observable effect of one invocation on one key: the stored value
after the call, the chaincode events set via `SetEvent` (name, payload),
and the outcome. -/
structure OpResult where
  state : Option StoredVal
  events : List (String × String)
  outcome : Outcome
deriving DecidableEq, Repr

/-- MSP ID required by `RegisterDrug` (line 42 of the source). -/
def manufacturerMSP : String := "CiplaMSP"

/-- MSP ID required by `RecallDrug` (line 106 of the source). -/
def regulatorMSP : String := "CDSCOMSP"

/-- The role-name derivation `mspID[:len(mspID)-3]` of `ShipDrug` (line 87).
A Go slice `s[:k]` requires `0 ≤ k ≤ len(s)`, so the expression is in
bounds iff `3 ≤ len(mspID)`; otherwise the goroutine panics, modelled by
`none`. -/
def deriveRole (mspID : String) : Option String :=
  if 3 ≤ mspID.length then some (mspID.take (mspID.length - 3)) else none

/-- `RegisterDrug` (source lines 38–72), acting on the stored value at
`drugID`.  The role check precedes the existence check, which precedes the
write. -/
def registerDrug (ts mspID drugID name batchNumber mfgDate expiryDate
    composition : String) (st : Option StoredVal) : OpResult :=
  if mspID ≠ manufacturerMSP then
    { state := st, events := [], outcome := .err .unauthorized }
  else if st.isSome then
    { state := st, events := [], outcome := .err .alreadyExists }
  else
    let drug : Drug :=
      { drugID := drugID, name := name, manufacturer := "Cipla"
      , batchNumber := batchNumber, mfgDate := mfgDate
      , expiryDate := expiryDate, composition := composition
      , currentOwner := "Cipla", status := "InProduction"
      , isRecalled := false
      , history := [ts ++ "|Created|Cipla|-|Batch: " ++ batchNumber]
      , inspectionNotes := [] }
    { state := some (.good drug), events := [], outcome := .ok }

/-- `ShipDrug` (source lines 75–101).  Order of checks as in the source:
existence, decode, then the owner check against `mspID[:len(mspID)-3]`
(`getMSPID`'s error is discarded, so a failed identity lookup reaches the
slice with the empty string and panics). -/
def shipDrug (ts mspID drugID dest : String) (st : Option StoredVal) :
    OpResult :=
  match st with
  | none => { state := st, events := [], outcome := .err .notFound }
  | some .bad => { state := st, events := [], outcome := .err .decodeError }
  | some (.good drug) =>
    match deriveRole mspID with
    | none => { state := st, events := [], outcome := .panic }
    | some role =>
      if drug.currentOwner ≠ role then
        { state := st, events := [], outcome := .err .unauthorized }
      else
        let drug' : Drug :=
          { drug with
            currentOwner := dest
          , status := "InTransit"
          , history := drug.history ++
              [ts ++ "|Shipped|" ++ drug.currentOwner ++ "|" ++ dest ++ "|"] }
        { state := some (.good drug')
        , events := [("DrugShipped", drugID)]
        , outcome := .ok }

/-- `RecallDrug` (source lines 104–128).  The decode error is discarded
(`_ = json.Unmarshal(drugBytes, &drug)`, line 116): on undecodable bytes
the transition proceeds with the zero-valued `Drug`. -/
def recallDrug (ts mspID drugID reason : String) (st : Option StoredVal) :
    OpResult :=
  if mspID ≠ regulatorMSP then
    { state := st, events := [], outcome := .err .unauthorized }
  else
    match st with
    | none => { state := st, events := [], outcome := .err .notFound }
    | some sv =>
      let drug := match sv with | .good d => d | .bad => zeroDrug
      let drug' : Drug :=
        { drug with
          isRecalled := true
        , status := "Recalled"
        , inspectionNotes := drug.inspectionNotes ++ [ts ++ ": " ++ reason]
        , history := drug.history ++
            [ts ++ "|Recalled|CDSCO|-|Reason: " ++ reason] }
      { state := some (.good drug')
      , events := [("DrugRecalled", drugID)]
      , outcome := .ok }

/-- `TrackDrug` (source lines 131–137): a pure read, no write, no event. -/
def trackDrug (st : Option StoredVal) : OpResult :=
  match st with
  | none => { state := st, events := [], outcome := .err .notFound }
  | some _ => { state := st, events := [], outcome := .ok }

/-- One chaincode invocation against the modelled key, with its
caller-supplied arguments and the timestamp observed during it. -/
inductive Op where
  | register (ts mspID drugID name batchNumber mfgDate expiryDate
      composition : String)
  | ship (ts mspID drugID dest : String)
  | recall (ts mspID drugID reason : String)
  | track
deriving DecidableEq, Repr

/-- Apply one invocation at the stored value. -/
def applyOp (st : Option StoredVal) : Op → OpResult
  | .register ts m id n b mf e c => registerDrug ts m id n b mf e c st
  | .ship ts m id dest => shipDrug ts m id dest st
  | .recall ts m id r => recallDrug ts m id r st
  | .track => trackDrug st

/-- Run a sequence of invocations, threading the stored value. -/
def runOps (st : Option StoredVal) : List Op → Option StoredVal
  | [] => st
  | op :: ops => runOps (applyOp st op).state ops

/-- The state-changing operations (everything but the read). -/
def Op.isWrite : Op → Bool
  | .track => false
  | _ => true

/-- The history of the record stored at the key ( `[]` when the key is
absent or undecodable). -/
def histOf : Option StoredVal → List String
  | some (.good d) => d.history
  | _ => []

/-- The seven creation-time fields of a record. -/
def coreFields (d : Drug) :
    String × String × String × String × String × String × String :=
  (d.drugID, d.name, d.manufacturer, d.batchNumber, d.mfgDate,
   d.expiryDate, d.composition)

/-- The record produced by a successful `RegisterDrug` at timestamp `"t0"`
with id `"DRUG-1"`, name `"ParacetamolX"`, batch `"B100"`. -/
def sampleDrug : Drug :=
  { drugID := "DRUG-1", name := "ParacetamolX", manufacturer := "Cipla"
  , batchNumber := "B100", mfgDate := "2024-01-01"
  , expiryDate := "2026-01-01", composition := "paracetamol"
  , currentOwner := "Cipla", status := "InProduction"
  , history := ["t0|Created|Cipla|-|Batch: B100"]
  , isRecalled := false, inspectionNotes := [] }

/-- `sampleDrug` after a successful `RecallDrug` at timestamp `"t1"` with
reason `"contamination"`. -/
def recalledSample : Drug :=
  { sampleDrug with
    isRecalled := true
  , status := "Recalled"
  , inspectionNotes := ["t1: contamination"]
  , history := sampleDrug.history ++ ["t1|Recalled|CDSCO|-|Reason: contamination"] }

/-- `sampleDrug` after a successful `ShipDrug` at timestamp `"t2"` to
`"Medlife"`. -/
def shippedSample : Drug :=
  { sampleDrug with
    currentOwner := "Medlife"
  , status := "InTransit"
  , history := sampleDrug.history ++ ["t2|Shipped|Cipla|Medlife|"] }

/-- C1: for a caller whose MSP ID resolves to a role (`3 ≤ length`, see C10
for the other case), `ShipDrug` on a stored record succeeds iff the resolved
role `mspID[:len-3]` equals `currentOwner` by exact string equality; on
success it sets `currentOwner` to the destination, `status` to `"InTransit"`
and appends exactly one `Shipped` history event with `fromParty` the old
owner and `toParty` the destination; any other caller gets the
"only the current owner can ship this drug" error with the stored value
unchanged, and a missing key fails with "drug not found". -/
theorem ship_transfer_custody_spec (ts mspID drugID dest : String) (d : Drug)
    (hlen : 3 ≤ mspID.length) :
    ((shipDrug ts mspID drugID dest (some (.good d))).outcome = .ok ↔
        mspID.take (mspID.length - 3) = d.currentOwner) ∧
    (mspID.take (mspID.length - 3) = d.currentOwner →
        shipDrug ts mspID drugID dest (some (.good d)) =
          { state := some (.good
              { d with
                currentOwner := dest
              , status := "InTransit"
              , history := d.history ++
                  [ts ++ "|Shipped|" ++ d.currentOwner ++ "|" ++ dest ++ "|"] })
          , events := [("DrugShipped", drugID)]
          , outcome := .ok }) ∧
    (mspID.take (mspID.length - 3) ≠ d.currentOwner →
        shipDrug ts mspID drugID dest (some (.good d)) =
          { state := some (.good d), events := []
          , outcome := .err .unauthorized }) ∧
    (shipDrug ts mspID drugID dest none).outcome = .err .notFound := by
  have hrole : deriveRole mspID = some (mspID.take (mspID.length - 3)) := by
    simp [deriveRole, hlen]
  by_cases h : mspID.take (mspID.length - 3) = d.currentOwner
  · simp [shipDrug, hrole, h]
  · have h' : ¬d.currentOwner = mspID.take (mspID.length - 3) :=
      fun he => h he.symm
    simp [shipDrug, hrole, h, h']

/-- C1 witness: with custodian `"Cipla"`, the caller `"CiplaMSP"` ships
successfully and the caller `"MedlifeMSP"` is rejected with the record
unchanged. -/
theorem ship_transfer_custody_spec_witness :
    (3 ≤ ("CiplaMSP" : String).length) ∧
    shipDrug "t2" "CiplaMSP" "DRUG-1" "Medlife" (some (.good sampleDrug)) =
      { state := some (.good shippedSample)
      , events := [("DrugShipped", "DRUG-1")], outcome := .ok } ∧
    shipDrug "t2" "MedlifeMSP" "DRUG-1" "Apollo" (some (.good sampleDrug)) =
      { state := some (.good sampleDrug), events := []
      , outcome := .err .unauthorized } := by
  refine ⟨by decide, ?_, ?_⟩
  · exact (ship_transfer_custody_spec "t2" "CiplaMSP" "DRUG-1" "Medlife"
      sampleDrug (by decide)).2.1 (by decide)
  · exact (ship_transfer_custody_spec "t2" "MedlifeMSP" "DRUG-1" "Apollo"
      sampleDrug (by decide)).2.2.1 (by decide)

/-- C2: `RegisterDrug` by the manufacturer MSP at a fresh id succeeds and
writes a record with `status = "InProduction"`, `currentOwner = "Cipla"`,
`isRecalled = false` and a single `Created` history event with
`toParty = "-"` and the batch number in the detail; a second create at the
same id by the manufacturer fails with "already exists" leaving the stored
value unchanged (the existence check precedes the write); any other caller
fails with "only Cipla (Manufacturer) can register drugs" and writes
nothing. -/
theorem register_exactly_once_spec (ts mspID drugID n b mf e c : String)
    (st : Option StoredVal) :
    (mspID = manufacturerMSP → st = none →
        registerDrug ts mspID drugID n b mf e c st =
          { state := some (.good
              { drugID := drugID, name := n, manufacturer := "Cipla"
              , batchNumber := b, mfgDate := mf, expiryDate := e
              , composition := c, currentOwner := "Cipla"
              , status := "InProduction"
              , history := [ts ++ "|Created|Cipla|-|Batch: " ++ b]
              , isRecalled := false, inspectionNotes := [] })
          , events := [], outcome := .ok }) ∧
    (mspID = manufacturerMSP → st.isSome →
        registerDrug ts mspID drugID n b mf e c st =
          { state := st, events := [], outcome := .err .alreadyExists }) ∧
    (mspID ≠ manufacturerMSP →
        registerDrug ts mspID drugID n b mf e c st =
          { state := st, events := [], outcome := .err .unauthorized }) := by
  refine ⟨?_, ?_, ?_⟩
  · rintro rfl rfl
    simp [registerDrug]
  · rintro rfl h
    simp [registerDrug, h]
  · intro h
    simp [registerDrug, h]

/-- C2 witness: the first create of `"DRUG-1"` by `"CiplaMSP"` yields
`sampleDrug`; a second create fails with `alreadyExists`; a create by
`"MedlifeMSP"` fails unauthorized and writes nothing. -/
theorem register_exactly_once_spec_witness :
    registerDrug "t0" "CiplaMSP" "DRUG-1" "ParacetamolX" "B100" "2024-01-01"
        "2026-01-01" "paracetamol" none =
      { state := some (.good sampleDrug), events := [], outcome := .ok } ∧
    registerDrug "t0" "CiplaMSP" "DRUG-1" "ParacetamolX" "B100" "2024-01-01"
        "2026-01-01" "paracetamol" (some (.good sampleDrug)) =
      { state := some (.good sampleDrug), events := []
      , outcome := .err .alreadyExists } ∧
    registerDrug "t0" "MedlifeMSP" "DRUG-1" "ParacetamolX" "B100"
        "2024-01-01" "2026-01-01" "paracetamol" none =
      { state := none, events := [], outcome := .err .unauthorized } := by
  refine ⟨?_, ?_, ?_⟩
  · exact (register_exactly_once_spec "t0" "CiplaMSP" "DRUG-1" "ParacetamolX"
      "B100" "2024-01-01" "2026-01-01" "paracetamol" none).1 rfl rfl
  · exact (register_exactly_once_spec "t0" "CiplaMSP" "DRUG-1" "ParacetamolX"
      "B100" "2024-01-01" "2026-01-01" "paracetamol"
      (some (.good sampleDrug))).2.1 rfl rfl
  · exact (register_exactly_once_spec "t0" "MedlifeMSP" "DRUG-1"
      "ParacetamolX" "B100" "2024-01-01" "2026-01-01" "paracetamol"
      none).2.2 (by decide)

/-- C3: `RecallDrug` on a stored record succeeds iff the caller MSP is
`"CDSCOMSP"`, whatever the record's `currentOwner`, `status` or
`isRecalled` (the record `d` is arbitrary, including already-recalled
ones); on success it sets `isRecalled := true`, `status := "Recalled"`,
appends exactly one inspection note and exactly one `Recalled` history
event with `fromParty = "CDSCO"` and `toParty = "-"`, leaving every other
field as it was; a role mismatch fails unauthorized with the stored value
unchanged, and a missing key fails with "drug not found". -/
theorem recall_regulator_spec (ts mspID drugID reason : String)
    (st : Option StoredVal) (d : Drug) :
    ((recallDrug ts mspID drugID reason (some (.good d))).outcome = .ok ↔
        mspID = regulatorMSP) ∧
    (mspID = regulatorMSP →
        recallDrug ts mspID drugID reason (some (.good d)) =
          { state := some (.good
              { d with
                isRecalled := true
              , status := "Recalled"
              , inspectionNotes := d.inspectionNotes ++ [ts ++ ": " ++ reason]
              , history := d.history ++
                  [ts ++ "|Recalled|CDSCO|-|Reason: " ++ reason] })
          , events := [("DrugRecalled", drugID)]
          , outcome := .ok }) ∧
    (mspID ≠ regulatorMSP →
        recallDrug ts mspID drugID reason st =
          { state := st, events := [], outcome := .err .unauthorized }) ∧
    (mspID = regulatorMSP →
        (recallDrug ts mspID drugID reason none).outcome =
          .err .notFound) := by
  by_cases h : mspID = regulatorMSP <;> simp [recallDrug, h]

/-- C3 witness: `"CDSCOMSP"` recalls `sampleDrug` (custodian `"Cipla"`,
status `"InProduction"`) successfully, yielding `recalledSample`; the
manufacturer MSP is rejected with the stored value unchanged. -/
theorem recall_regulator_spec_witness :
    recallDrug "t1" "CDSCOMSP" "DRUG-1" "contamination"
        (some (.good sampleDrug)) =
      { state := some (.good recalledSample)
      , events := [("DrugRecalled", "DRUG-1")], outcome := .ok } ∧
    recallDrug "t1" "CiplaMSP" "DRUG-1" "contamination"
        (some (.good sampleDrug)) =
      { state := some (.good sampleDrug), events := []
      , outcome := .err .unauthorized } := by
  refine ⟨?_, ?_⟩
  · exact (recall_regulator_spec "t1" "CDSCOMSP" "DRUG-1" "contamination"
      (some (.good sampleDrug)) sampleDrug).2.1 rfl
  · exact (recall_regulator_spec "t1" "CiplaMSP" "DRUG-1" "contamination"
      (some (.good sampleDrug)) sampleDrug).2.2.1 (by decide)

/-- The key holds a decodable record whose `isRecalled` flag is set. -/
def recalledInv : Option StoredVal → Bool
  | some (.good d) => d.isRecalled
  | _ => false

/-- One invocation of any operation preserves `recalledInv`. -/
theorem recalledInv_step (st : Option StoredVal) (op : Op)
    (h : recalledInv st = true) :
    recalledInv (applyOp st op).state = true := by
  obtain ⟨d, rfl, hd⟩ : ∃ d, st = some (.good d) ∧ d.isRecalled = true := by
    match st, h with
    | some (.good d), h => exact ⟨d, rfl, h⟩
  match op with
  | .register ts m id n b mf e c =>
    by_cases hm : m = manufacturerMSP <;>
      simp [applyOp, registerDrug, recalledInv, hm, hd]
  | .ship ts m id dest =>
    simp only [applyOp, shipDrug]
    cases hr : deriveRole m with
    | none => simpa [recalledInv] using hd
    | some role =>
      by_cases ho : d.currentOwner = role <;>
        simp [recalledInv, ho, hd]
  | .recall ts m id r =>
    by_cases hm : m = regulatorMSP <;>
      simp [applyOp, recallDrug, recalledInv, hm, hd]
  | .track => simpa [applyOp, trackDrug, recalledInv] using hd

/-- C4: the `isRecalled` flag is monotonic — once the stored record has
`isRecalled = true`, no sequence of further invocations (register, ship,
recall, track, with any arguments) ever yields a stored record with
`isRecalled = false`. -/
theorem recalled_monotonic (st : Option StoredVal) (ops : List Op)
    (h : recalledInv st = true) :
    recalledInv (runOps st ops) = true := by
  induction ops generalizing st with
  | nil => exact h
  | cons op ops ih => exact ih _ (recalledInv_step st op h)

/-- C4 witness: starting from the recalled `recalledSample`, a ship by the
owner, a re-recall, a duplicate register attempt and a read leave the flag
set. -/
theorem recalled_monotonic_witness :
    recalledInv (runOps (some (.good recalledSample))
      [Op.ship "t2" "CiplaMSP" "DRUG-1" "Medlife",
       Op.recall "t3" "CDSCOMSP" "DRUG-1" "again",
       Op.register "t4" "CiplaMSP" "DRUG-1" "n" "b" "m" "e" "c",
       Op.track]) = true :=
  recalled_monotonic (some (.good recalledSample)) _ rfl

/-- C5 counterexample: the claim says a custody transfer on a recalled
batch is rejected with `InvalidState` and changes nothing, but `ShipDrug`
has no such guard: shipping `recalledSample` (status `"Recalled"`) as its
current owner succeeds and sets `status := "InTransit"` and
`currentOwner := "Medlife"`. -/
theorem ship_recalled_not_blocked_cex :
    (shipDrug "t2" "CiplaMSP" "DRUG-1" "Medlife"
        (some (.good recalledSample))).outcome = Outcome.ok ∧
    (shipDrug "t2" "CiplaMSP" "DRUG-1" "Medlife"
        (some (.good recalledSample))).state =
      some (.good
        { recalledSample with
          currentOwner := "Medlife"
        , status := "InTransit"
        , history := recalledSample.history ++ ["t2|Shipped|Cipla|Medlife|"] }) := by
  exact ⟨rfl, rfl⟩

/-- C5 amended: `Recalled` is not an absorbing status — `ShipDrug` does not
check `status` or `isRecalled`, so a transfer on a recalled batch by its
current custodian succeeds, setting `status := "InTransit"` and
`currentOwner` to the destination; only the `isRecalled` boolean survives
the transfer. -/
theorem ship_recalled_succeeds (ts mspID drugID dest : String) (d : Drug)
    (hlen : 3 ≤ mspID.length)
    (hown : mspID.take (mspID.length - 3) = d.currentOwner)
    (hrec : d.isRecalled = true) :
    shipDrug ts mspID drugID dest (some (.good d)) =
      { state := some (.good
          { d with
            currentOwner := dest
          , status := "InTransit"
          , history := d.history ++
              [ts ++ "|Shipped|" ++ d.currentOwner ++ "|" ++ dest ++ "|"] })
      , events := [("DrugShipped", drugID)], outcome := .ok } ∧
    ({ d with
        currentOwner := dest
      , status := "InTransit"
      , history := d.history ++
          [ts ++ "|Shipped|" ++ d.currentOwner ++ "|" ++ dest ++ "|"] } :
        Drug).isRecalled = true := by
  refine ⟨(ship_transfer_custody_spec ts mspID drugID dest d hlen).2.1 hown, hrec⟩

/-- C5 amended witness: the concrete recalled record is shipped
successfully and stays flagged. -/
theorem ship_recalled_succeeds_witness :
    shipDrug "t2" "CiplaMSP" "DRUG-1" "Medlife"
        (some (.good recalledSample)) =
      { state := some (.good
          { recalledSample with
            currentOwner := "Medlife"
          , status := "InTransit"
          , history := recalledSample.history ++
              ["t2|Shipped|Cipla|Medlife|"] })
      , events := [("DrugShipped", "DRUG-1")], outcome := .ok } ∧
    ({ recalledSample with
        currentOwner := "Medlife"
      , status := "InTransit"
      , history := recalledSample.history ++
          ["t2|Shipped|Cipla|Medlife|"] } : Drug).isRecalled = true :=
  ship_recalled_succeeds "t2" "CiplaMSP" "DRUG-1" "Medlife" recalledSample
    (by decide) (by decide) rfl

/-- Any single invocation extends the stored history on the right: the old
history is a prefix of the new one. -/
theorem histOf_step (st : Option StoredVal) (op : Op) :
    ∃ t, histOf st ++ t = histOf (applyOp st op).state := by
  match op with
  | .register ts m id n b mf e c =>
    by_cases hm : m = manufacturerMSP
    · cases st with
      | none => exact ⟨[ts ++ "|Created|Cipla|-|Batch: " ++ b],
          by simp [applyOp, registerDrug, hm, histOf]⟩
      | some sv => simp [applyOp, registerDrug, hm]
    · simp [applyOp, registerDrug, hm]
  | .ship ts m id dest =>
    cases st with
    | none => simp [applyOp, shipDrug]
    | some sv =>
      cases sv with
      | bad => simp [applyOp, shipDrug]
      | good d =>
        cases hr : deriveRole m with
        | none => simp [applyOp, shipDrug, hr]
        | some role =>
          by_cases ho : d.currentOwner = role
          · exact ⟨[ts ++ "|Shipped|" ++ d.currentOwner ++ "|" ++ dest ++ "|"],
              by simp [applyOp, shipDrug, hr, ho, histOf]⟩
          · simp [applyOp, shipDrug, hr, ho]
  | .recall ts m id r =>
    by_cases hm : m = regulatorMSP
    · cases st with
      | none => simp [applyOp, recallDrug, hm]
      | some sv =>
        cases sv with
        | good d => exact ⟨[ts ++ "|Recalled|CDSCO|-|Reason: " ++ r],
            by simp [applyOp, recallDrug, hm, histOf]⟩
        | bad => exact ⟨[ts ++ "|Recalled|CDSCO|-|Reason: " ++ r],
            by simp [applyOp, recallDrug, hm, histOf, zeroDrug]⟩
    · simp [applyOp, recallDrug, hm]
  | .track => cases st <;> simp [applyOp, trackDrug]

/-- C6: the history is append-only — across any sequence of invocations the
earlier stored history is a prefix of the later one (so its length is
non-decreasing and no entry is removed, reordered or modified), and every
successful state-changing invocation (register, ship, recall) appends
exactly one event, in the same write as the record update. -/
theorem history_append_only (st : Option StoredVal) (ops : List Op) :
    (∃ t, histOf st ++ t = histOf (runOps st ops)) ∧
    (∀ op, (applyOp st op).outcome = .ok → op.isWrite = true →
        ∃ e, histOf (applyOp st op).state = histOf st ++ [e]) := by
  constructor
  · induction ops generalizing st with
    | nil => exact ⟨[], by simp [runOps]⟩
    | cons op ops ih =>
      obtain ⟨t1, h1⟩ := histOf_step st op
      obtain ⟨t2, h2⟩ := ih (applyOp st op).state
      exact ⟨t1 ++ t2, by rw [← List.append_assoc, h1, h2, runOps]⟩
  · intro op hok hw
    match op with
    | .register ts m id n b mf e c =>
      by_cases hm : m = manufacturerMSP
      · cases st with
        | none => exact ⟨ts ++ "|Created|Cipla|-|Batch: " ++ b,
            by simp [applyOp, registerDrug, hm, histOf]⟩
        | some sv => simp [applyOp, registerDrug, hm] at hok
      · simp [applyOp, registerDrug, hm] at hok
    | .ship ts m id dest =>
      cases st with
      | none => simp [applyOp, shipDrug] at hok
      | some sv =>
        cases sv with
        | bad => simp [applyOp, shipDrug] at hok
        | good d =>
          cases hr : deriveRole m with
          | none => simp [applyOp, shipDrug, hr] at hok
          | some role =>
            by_cases ho : d.currentOwner = role
            · exact ⟨ts ++ "|Shipped|" ++ d.currentOwner ++ "|" ++ dest ++ "|",
                by simp [applyOp, shipDrug, hr, ho, histOf]⟩
            · simp [applyOp, shipDrug, hr, ho] at hok
    | .recall ts m id r =>
      by_cases hm : m = regulatorMSP
      · cases st with
        | none => simp [applyOp, recallDrug, hm] at hok
        | some sv =>
          cases sv with
          | good d => exact ⟨ts ++ "|Recalled|CDSCO|-|Reason: " ++ r,
              by simp [applyOp, recallDrug, hm, histOf]⟩
          | bad => exact ⟨ts ++ "|Recalled|CDSCO|-|Reason: " ++ r,
              by simp [applyOp, recallDrug, hm, histOf, zeroDrug]⟩
      · simp [applyOp, recallDrug, hm] at hok
    | .track => simp [Op.isWrite] at hw

/-- C6 witness: a successful recall on `sampleDrug` extends the history,
and appends exactly one event. -/
theorem history_append_only_witness :
    (∃ t, histOf (some (.good sampleDrug)) ++ t =
        histOf (runOps (some (.good sampleDrug))
          [Op.recall "t1" "CDSCOMSP" "DRUG-1" "contamination"])) ∧
    (∃ e, histOf (applyOp (some (.good sampleDrug))
          (Op.recall "t1" "CDSCOMSP" "DRUG-1" "contamination")).state =
        histOf (some (.good sampleDrug)) ++ [e]) :=
  ⟨(history_append_only (some (.good sampleDrug))
      [Op.recall "t1" "CDSCOMSP" "DRUG-1" "contamination"]).1,
   (history_append_only (some (.good sampleDrug)) []).2
     (Op.recall "t1" "CDSCOMSP" "DRUG-1" "contamination") rfl rfl⟩

/-- C7 (code bug): `RecallDrug` discards the `json.Unmarshal` error
(line 116), so on stored bytes that do not decode it does NOT abort:
it reports success and persists a record rebuilt from the Go zero values
of `Drug` (all creation fields empty), plus the recall updates —
contradicting the propagation policy that a decode failure aborts the
transition with no write. -/
theorem recall_swallows_decode_error :
    recallDrug "t9" "CDSCOMSP" "DRUG-1" "why" (some .bad) =
      { state := some (.good
          { zeroDrug with
            isRecalled := true
          , status := "Recalled"
          , inspectionNotes := ["t9: why"]
          , history := ["t9|Recalled|CDSCO|-|Reason: why"] })
      , events := [("DrugRecalled", "DRUG-1")], outcome := .ok } := by
  rfl

/-- C8 counterexample: on a successful ship and a successful recall the
emitted event names are `"DrugShipped"` and `"DrugRecalled"`, not the
`"CustodyTransferred"` / `"BatchRecalled"` the claim states. -/
theorem event_name_cex :
    (shipDrug "t2" "CiplaMSP" "DRUG-1" "Medlife"
        (some (.good sampleDrug))).outcome = Outcome.ok ∧
    (shipDrug "t2" "CiplaMSP" "DRUG-1" "Medlife"
        (some (.good sampleDrug))).events.map Prod.fst = ["DrugShipped"] ∧
    (recallDrug "t1" "CDSCOMSP" "DRUG-1" "contamination"
        (some (.good sampleDrug))).outcome = Outcome.ok ∧
    (recallDrug "t1" "CDSCOMSP" "DRUG-1" "contamination"
        (some (.good sampleDrug))).events.map Prod.fst = ["DrugRecalled"] ∧
    ("DrugShipped" : String) ≠ "CustodyTransferred" ∧
    ("DrugRecalled" : String) ≠ "BatchRecalled" := by
  exact ⟨rfl, rfl, rfl, rfl, by decide, by decide⟩

/-- C8 amended: every successful `ShipDrug` emits exactly the one event
`("DrugShipped", drugID)` and every successful `RecallDrug` emits exactly
`("DrugRecalled", drugID)`; failed invocations, `RegisterDrug` and
`TrackDrug` emit no event. -/
theorem event_emission_spec (ts m id dest reason n b mf e c : String)
    (st : Option StoredVal) :
    ((shipDrug ts m id dest st).outcome = .ok →
        (shipDrug ts m id dest st).events = [("DrugShipped", id)]) ∧
    ((shipDrug ts m id dest st).outcome ≠ .ok →
        (shipDrug ts m id dest st).events = []) ∧
    ((recallDrug ts m id reason st).outcome = .ok →
        (recallDrug ts m id reason st).events = [("DrugRecalled", id)]) ∧
    ((recallDrug ts m id reason st).outcome ≠ .ok →
        (recallDrug ts m id reason st).events = []) ∧
    (registerDrug ts m id n b mf e c st).events = [] ∧
    (trackDrug st).events = [] := by
  have hship : ((shipDrug ts m id dest st).outcome = .ok →
      (shipDrug ts m id dest st).events = [("DrugShipped", id)]) ∧
      ((shipDrug ts m id dest st).outcome ≠ .ok →
        (shipDrug ts m id dest st).events = []) := by
    cases st with
    | none => simp [shipDrug]
    | some sv =>
      cases sv with
      | bad => simp [shipDrug]
      | good d =>
        cases hr : deriveRole m with
        | none => simp [shipDrug, hr]
        | some role =>
          by_cases ho : d.currentOwner = role <;> simp [shipDrug, hr, ho]
  have hrecall : ((recallDrug ts m id reason st).outcome = .ok →
      (recallDrug ts m id reason st).events = [("DrugRecalled", id)]) ∧
      ((recallDrug ts m id reason st).outcome ≠ .ok →
        (recallDrug ts m id reason st).events = []) := by
    by_cases hm : m = regulatorMSP
    · cases st with
      | none => simp [recallDrug, hm]
      | some sv => cases sv <;> simp [recallDrug, hm]
    · simp [recallDrug, hm]
  have hreg : (registerDrug ts m id n b mf e c st).events = [] := by
    by_cases hm : m = manufacturerMSP
    · cases st with
      | none => simp [registerDrug, hm]
      | some sv => simp [registerDrug, hm]
    · simp [registerDrug, hm]
  have htrack : (trackDrug st).events = [] := by cases st <;> rfl
  exact ⟨hship.1, hship.2, hrecall.1, hrecall.2, hreg, htrack⟩

/-- C8 amended witness: a successful ship/recall each emit their single
event; unauthorized ones emit none. -/
theorem event_emission_spec_witness :
    (shipDrug "t2" "CiplaMSP" "DRUG-1" "Medlife"
        (some (.good sampleDrug))).events = [("DrugShipped", "DRUG-1")] ∧
    (shipDrug "t2" "CDSCOMSP" "DRUG-1" "Medlife"
        (some (.good sampleDrug))).events = [] ∧
    (recallDrug "t1" "CDSCOMSP" "DRUG-1" "contamination"
        (some (.good sampleDrug))).events = [("DrugRecalled", "DRUG-1")] ∧
    (recallDrug "t1" "CiplaMSP" "DRUG-1" "contamination"
        (some (.good sampleDrug))).events = [] := by
  refine ⟨?_, ?_, ?_, ?_⟩
  · exact (event_emission_spec "t2" "CiplaMSP" "DRUG-1" "Medlife" "r" "n"
      "b" "mf" "e" "c" (some (.good sampleDrug))).1 rfl
  · exact (event_emission_spec "t2" "CDSCOMSP" "DRUG-1" "Medlife" "r" "n"
      "b" "mf" "e" "c" (some (.good sampleDrug))).2.1 (by decide)
  · exact (event_emission_spec "t1" "CDSCOMSP" "DRUG-1" "x" "contamination"
      "n" "b" "mf" "e" "c" (some (.good sampleDrug))).2.2.1 rfl
  · exact (event_emission_spec "t1" "CiplaMSP" "DRUG-1" "x" "contamination"
      "n" "b" "mf" "e" "c" (some (.good sampleDrug))).2.2.2.1 (by decide)

/-- From a decodable record, one invocation keeps the key decodable and
preserves the seven creation-time fields. -/
theorem good_step (d : Drug) (op : Op) :
    ∃ d', (applyOp (some (.good d)) op).state = some (.good d') ∧
      coreFields d' = coreFields d := by
  match op with
  | .register ts m id n b mf e c =>
    by_cases hm : m = manufacturerMSP <;>
      exact ⟨d, by simp [applyOp, registerDrug, hm], rfl⟩
  | .ship ts m id dest =>
    cases hr : deriveRole m with
    | none => exact ⟨d, by simp [applyOp, shipDrug, hr], rfl⟩
    | some role =>
      by_cases ho : d.currentOwner = role
      · exact ⟨{ d with
            currentOwner := dest
          , status := "InTransit"
          , history := d.history ++
              [ts ++ "|Shipped|" ++ d.currentOwner ++ "|" ++ dest ++ "|"] },
          by simp [applyOp, shipDrug, hr, ho], rfl⟩
      · exact ⟨d, by simp [applyOp, shipDrug, hr, ho], rfl⟩
  | .recall ts m id r =>
    by_cases hm : m = regulatorMSP
    · exact ⟨{ d with
          isRecalled := true
        , status := "Recalled"
        , inspectionNotes := d.inspectionNotes ++ [ts ++ ": " ++ r]
        , history := d.history ++
            [ts ++ "|Recalled|CDSCO|-|Reason: " ++ r] },
        by simp [applyOp, recallDrug, hm], rfl⟩
    · exact ⟨d, by simp [applyOp, recallDrug, hm], rfl⟩
  | .track => exact ⟨d, by simp [applyOp, trackDrug], rfl⟩

/-- C9: the creation-time fields (`drugID`, `name`, `manufacturer`,
`batchNumber`, `mfgDate`, `expiryDate`, `composition`) of a stored record
are immutable — whatever sequence of invocations runs afterwards, the
record stored at the key carries the same seven values. -/
theorem creation_fields_immutable (d : Drug) (ops : List Op) (d' : Drug)
    (h : runOps (some (.good d)) ops = some (.good d')) :
    coreFields d' = coreFields d := by
  induction ops generalizing d with
  | nil =>
    simp only [runOps, Option.some.injEq, StoredVal.good.injEq] at h
    rw [h]
  | cons op ops ih =>
    obtain ⟨e, he, hf⟩ := good_step d op
    rw [runOps, he] at h
    exact (ih e h).trans hf

/-- C9 witness: after shipping `sampleDrug` the stored record
`shippedSample` carries the same creation fields. -/
theorem creation_fields_immutable_witness :
    coreFields shippedSample = coreFields sampleDrug :=
  creation_fields_immutable sampleDrug
    [Op.ship "t2" "CiplaMSP" "DRUG-1" "Medlife"] shippedSample rfl

/-- C10: `ShipDrug`'s role derivation `mspID[:len(mspID)-3]` is in bounds
only when the MSP ID has length at least 3: on an existing decodable record
the invocation panics exactly when `len(mspID) < 3`, and in particular when
identity resolution failed and `mspID` is the empty string (the error being
discarded), instead of returning the unauthorized error. -/
theorem ship_role_slice_panic (ts mspID drugID dest : String) (d : Drug) :
    ((shipDrug ts mspID drugID dest (some (.good d))).outcome = .panic ↔
        mspID.length < 3) ∧
    (shipDrug ts "" drugID dest (some (.good d))).outcome = .panic := by
  constructor
  · by_cases hlen : 3 ≤ mspID.length
    · have hrole : deriveRole mspID = some (mspID.take (mspID.length - 3)) := by
        simp [deriveRole, hlen]
      by_cases ho : d.currentOwner = mspID.take (mspID.length - 3) <;>
        · simp [shipDrug, hrole, ho]
          omega
    · have hrole : deriveRole mspID = none := by simp [deriveRole, hlen]
      simp [shipDrug, hrole]
      omega
  · rfl

/-- C10 witness: the empty MSP ID (failed identity lookup) panics on
`sampleDrug`. -/
theorem ship_role_slice_panic_witness :
    ((shipDrug "t2" "" "DRUG-1" "Medlife"
        (some (.good sampleDrug))).outcome = Outcome.panic ↔
      ("" : String).length < 3) ∧
    (shipDrug "t2" "" "DRUG-1" "Medlife"
        (some (.good sampleDrug))).outcome = Outcome.panic :=
  ship_role_slice_panic "t2" "" "DRUG-1" "Medlife" sampleDrug
